import Mathlib

/-!
Verification development for `gen_ai_class_submit_2025` (files
`kadai/app_kadai.py` and `kadai/gemini_kadai.py`).

The repository is a small Streamlit application: it gathers a user's mood
and genre preferences, asks an external text-generation service for game
titles, asks it again for one-line descriptions, persists one row per title
into a SQLite table `game_suggestions`, and renders a deletable history.

Shallow embedding conventions:
- Python strings are Lean `String`s; `str.strip()` and `split('\n')` are
  modelled character-wise on `String.data` (structurally recursive, so the
  kernel can evaluate them on literals).
- The external service (`client.models.generate_content`) is an opaque
  parameter `svc : String → Option String` mapping the prompt text to
  `some responseText`, or `none` when the call raises an exception.
- A function that lets a Python exception escape is modelled as returning
  `none` / `Option`-failure; a flow that aborts with an uncaught exception
  performs no store writes.
- The SQLite table is a `Store`: the rows in rowid (insertion) order plus
  the `AUTOINCREMENT` sequence counter (`sqlite_sequence` keeps the largest
  id ever assigned, so ids are never reused after deletion).
- `created_at` timestamps are modelled as `Nat`; each insert of a batch
  receives its own timestamp (`datetime.now()` per loop iteration) through
  a function `times : Nat → Nat` giving the k-th insert's timestamp.
- `SELECT ... ORDER BY created_at DESC` guarantees only that the result is
  some permutation of the rows sorted by `created_at` descending: SQLite
  leaves the relative order of rows with equal `created_at` unspecified.
  This guarantee is the relation `sqlOrderByTimeDesc`; the function
  `Store.listAll` is one admissible deterministic realization of it, used
  where a single concrete result is needed.
-/

/-- Whitespace test used by `strip`; covers the ASCII whitespace that
Python's `str.strip()` removes on the texts handled here. -/
def isSpace (c : Char) : Bool := c.isWhitespace

/-- Characterwise version of Python's `str.strip()`: drop leading and
trailing whitespace. -/
def stripChars (cs : List Char) : List Char :=
  ((cs.dropWhile isSpace).reverse.dropWhile isSpace).reverse

/-- Python's `str.strip()`. -/
def strip (s : String) : String := String.mk (stripChars s.data)

/-- Python's `str.split('\n')`: split at every newline, keeping empty
pieces (so `"a\n\n"` yields `["a", "", ""]`). -/
def splitNl : List Char → List (List Char)
  | [] => [[]]
  | c :: cs =>
    if c = '\n' then [] :: splitNl cs
    else
      match splitNl cs with
      | l :: ls => (c :: l) :: ls
      | [] => [[c]]

/-- The response parsing used for both the titles call and the descriptions
call, `app_kadai.py` lines 142 and 200-202, `gemini_kadai.py` lines 236 and
272-274:
`[l.strip() for l in text.strip().split('\n') if l.strip()]` —
strip the whole text, split on newlines, trim each line, drop empties,
keeping response order. -/
def parseLines (text : String) : List String :=
  ((splitNl (strip text).data).map (fun l => strip (String.mk l))).filter (fun l => l ≠ "")

/-- The sentinel description `"説明なし"` ("no description available"),
substituted when a description line is missing. -/
def noDescription : String := "説明なし"

/-- The context part of the description prompt, `app_kadai.py` lines
106-126: one of three templates depending on which of mood/opinion are
non-empty (Python truthiness of a string is non-emptiness). -/
def descContext (mood opinion : String) : String :=
  if mood ≠ "" ∧ opinion ≠ "" then
    "ユーザーの気分：" ++ mood ++ "\n" ++ "ユーザーの好み：" ++ opinion ++ "\n\n"
      ++ "以下のゲームタイトルについて、それぞれ1行で簡潔に説明してください。"
      ++ "説明には、このゲームがなぜユーザーの気分と好みに合っているのかを含めてください。"
  else if mood ≠ "" then
    "ユーザーの気分：" ++ mood ++ "\n\n"
      ++ "以下のゲームタイトルについて、それぞれ1行で簡潔に説明してください。"
      ++ "説明には、このゲームがなぜユーザーの気分に合っているのかを含めてください。"
  else
    "ユーザーの好み：" ++ opinion ++ "\n\n"
      ++ "以下のゲームタイトルについて、それぞれ1行で簡潔に説明してください。"
      ++ "説明には、このゲームがなぜユーザーの好みに合っているのかを含めてください。"

/-- The full description prompt of `app_kadai.py` lines 106-138. -/
def descPrompt (titles : List String) (mood opinion : String) : String :=
  if mood ≠ "" ∨ opinion ≠ "" then
    descContext mood opinion
      ++ " タイトルは出力せず、タイトルの順に対応する説明だけを改行区切りで出力してください。\n\n"
      ++ String.intercalate "\n" titles
  else
    "以下のゲームタイトルについて、それぞれ1行で簡潔に説明してください。"
      ++ " タイトルは出力せず、タイトルの順に対応する説明だけを改行区切りで出力してください。\n\n"
      ++ String.intercalate "\n" titles

/-- The description prompt of `gemini_kadai.py` lines 186-217 (four
triple-quoted templates; `chr(10)` is `"\n"`). -/
def geminiDescPrompt (titles : List String) (mood opinion : String) : String :=
  if mood ≠ "" ∨ opinion ≠ "" then
    (if mood ≠ "" ∧ opinion ≠ "" then
      "ユーザーの気分：" ++ mood ++ "\nユーザーの好み：" ++ opinion
        ++ "\n\n以下のゲームタイトルについて、それぞれ1行で簡潔に説明してください。"
        ++ "\n説明には、このゲームがなぜユーザーの気分と好みに合っているのかを含めてください。"
        ++ "\nタイトルは出力せず、タイトルの順に対応する説明だけを改行区切りで出力してください。\n\n"
    else if mood ≠ "" then
      "ユーザーの気分：" ++ mood
        ++ "\n\n以下のゲームタイトルについて、それぞれ1行で簡潔に説明してください。"
        ++ "\n説明には、このゲームがなぜユーザーの気分に合っているのかを含めてください。"
        ++ "\nタイトルは出力せず、タイトルの順に対応する説明だけを改行区切りで出力してください。\n\n"
    else
      "ユーザーの好み：" ++ opinion
        ++ "\n\n以下のゲームタイトルについて、それぞれ1行で簡潔に説明してください。"
        ++ "\n説明には、このゲームがなぜユーザーの好みに合っているのかを含めてください。"
        ++ "\nタイトルは出力せず、タイトルの順に対応する説明だけを改行区切りで出力してください。\n\n")
      ++ String.intercalate "\n" titles
  else
    "以下のゲームタイトルについて、それぞれ1行で簡潔に説明してください。"
      ++ "\nタイトルは出力せず、タイトルの順に対応する説明だけを改行区切りで出力してください。\n\n"
      ++ String.intercalate "\n" titles

/-- The user-state section of the titles prompt, `app_kadai.py` lines
172-176. -/
def userStateSection (mood : String) : String :=
  "【ユーザーの状態】\n" ++ (if mood ≠ "" then "気分: " ++ mood ++ "\n\n" else "気分: 情報なし\n\n")

/-- The preferences section of the titles prompt, `app_kadai.py` lines
178-182. -/
def prefsSection (opinion : String) : String :=
  "【ゲームの好み・要望】\n" ++ (if opinion ≠ "" then opinion ++ "\n\n" else "なし\n\n")

/-- The titles prompt of `app_kadai.py` lines 185-198. -/
def titlesPromptApp (mood opinion : String) : String :=
  "以下のユーザーの気分と意見を詳しく分析して、最も適切なゲームタイトルを20個提案してください。\n\n"
    ++ userStateSection mood ++ prefsSection opinion
    ++ "\n\n【提案の条件】\n1. 実在するゲームのみを提案してください"
    ++ "\n2. 架空のゲームは絶対に含めないでください"
    ++ "\n3. 有名なゲームだけでなく、比較的知られていないが高い評価を受けているゲームも含めてください"
    ++ "\n4. 新作から懐かしい作品まで、様々な時期のゲームを提案してください"
    ++ "\n5. ユーザーの気分と意見を最大限に考慮してください"
    ++ "\n6. 各タイトルは改行で区切ってください"
    ++ "\n7. ゲームタイトルのみを出力してください（説明は不要）"

/-- The titles prompt of `gemini_kadai.py` lines 139-150
(`generate_game_suggestion`). -/
def titlesPromptGemini (mood opinion : String) : String :=
  "以下の気分と意見に基づいて、実際に存在するゲームタイトルを20個提案してください。\n\n"
    ++ "【提案の条件】\n1. 実在するゲームのみを提案してください"
    ++ "\n2. 架空のゲームは絶対に含めないでください"
    ++ "\n3. 有名なゲームだけでなく、比較的知られていないが高い評価を受けているゲームも含めてください"
    ++ "\n4. 新作から懐かしい作品まで、様々な時期のゲームを提案してください"
    ++ "\n5. 各タイトルは改行で区切ってください"
    ++ "\n6. ゲームタイトルのみを出力してください（説明は不要）"
    ++ "\n\n気分: " ++ mood ++ "\n意見: " ++ opinion

/-- The padding step shared verbatim by both enrichers
(`app_kadai.py` lines 146-148, `gemini_kadai.py` lines 238-240):
`if len(lines) < len(titles): lines += ["説明なし"] * (len(titles) - len(lines))`.
Lines beyond the title count are left untouched (no truncation). -/
def padLines (titlesLen : Nat) (lines : List String) : List String :=
  if lines.length < titlesLen then
    lines ++ List.replicate (titlesLen - lines.length) noDescription
  else lines

/-- `generate_one_line_descriptions` of `app_kadai.py` lines 98-150.
Returns the description list together with a flag recording whether the
external service was called. The `try/except` around the call (lines
140-144) is modelled by mapping a raising call (`svc _ = none`) to an empty
line list. -/
def generate_one_line_descriptions (titles : List String) (mood opinion : String)
    (svc : String → Option String) : List String × Bool :=
  if titles = [] then ([], false)
  else
    let lines := match svc (descPrompt titles mood opinion) with
      | some text => parseLines text
      | none => []
    (padLines titles.length lines, true)

/-- `generate_game_descriptions` of `gemini_kadai.py` lines 170-242.
Unlike `app_kadai.py`, the service call (line 230) is not wrapped in
`try/except`, so a raising call propagates: this is the `(none, true)`
result. The second component again records whether a call was made. -/
def generate_game_descriptions (titles : List String) (mood opinion : String)
    (svc : String → Option String) : Option (List String) × Bool :=
  if titles = [] then (some [], false)
  else
    match svc (geminiDescPrompt titles mood opinion) with
    | none => (none, true)
    | some text => (some (padLines titles.length (parseLines text)), true)

/-- One row of the `game_suggestions` table (schema in `init_db`,
`app_kadai.py` lines 73-85 / `init_database`, `gemini_kadai.py` lines
47-67). -/
structure SuggestionRecord where
  id : Nat
  mood : String
  opinion : String
  suggestedGame : String
  createdAt : Nat
deriving DecidableEq

/-- The persistent state of the SQLite file: the table rows in rowid
(insertion) order, plus the `AUTOINCREMENT` sequence counter `seq`
(the largest id ever assigned; SQLite's `sqlite_sequence` entry, which
`DELETE` statements do not reset). -/
structure Store where
  rows : List SuggestionRecord
  seq : Nat
deriving DecidableEq

/-- A freshly created database: empty table, no id ever assigned. -/
def Store.empty : Store := ⟨[], 0⟩

/-- `INSERT INTO game_suggestions (mood, opinion, suggested_game, created_at)
VALUES (?, ?, ?, ?)` (`app_kadai.py` lines 213-216, `gemini_kadai.py`
`save_game_suggestion` lines 82-100). With `AUTOINCREMENT` the new id is
one more than the largest id ever assigned. Returns the new store and the
new row's id (`cursor.lastrowid`). -/
def Store.insert (s : Store) (mood opinion game : String) (now : Nat) : Store × Nat :=
  let newId := s.seq + 1
  (⟨s.rows ++ [⟨newId, mood, opinion, game, now⟩], newId⟩, newId)

/-- `DELETE FROM game_suggestions WHERE id = ?` (`app_kadai.py` line 308,
`gemini_kadai.py` line 364). -/
def Store.deleteOne (s : Store) (id : Nat) : Store :=
  ⟨s.rows.filter (fun r => r.id ≠ id), s.seq⟩

/-- `DELETE FROM game_suggestions` (`app_kadai.py` line 272,
`gemini_kadai.py` line 334). The `AUTOINCREMENT` counter is untouched. -/
def Store.deleteAll (s : Store) : Store := ⟨[], s.seq⟩

/-- Descending-timestamp order used by the history query. -/
def byTimeDesc (a b : SuggestionRecord) : Prop := b.createdAt ≤ a.createdAt

instance : DecidableRel byTimeDesc :=
  fun a b => inferInstanceAs (Decidable (b.createdAt ≤ a.createdAt))

instance : IsTotal SuggestionRecord byTimeDesc :=
  ⟨fun a b => Nat.le_total b.createdAt a.createdAt⟩

instance : IsTrans SuggestionRecord byTimeDesc :=
  ⟨fun _ _ _ hab hbc => Nat.le_trans hbc hab⟩

/-- One admissible deterministic realization of the history query
`SELECT id, mood, opinion, suggested_game, created_at FROM game_suggestions
ORDER BY created_at DESC` (`app_kadai.py` line 256, `gemini_kadai.py`
`get_all_suggestions` lines 103-118): the rowid-ordered table sorted by
`created_at` descending. The query itself guarantees only
`sqlOrderByTimeDesc` below — SQLite does not promise any particular order
among rows with equal `created_at`, so this function must not be the basis
for tie-order properties. -/
def Store.listAll (s : Store) : List SuggestionRecord :=
  s.rows.insertionSort byTimeDesc

/-- What `ORDER BY created_at DESC` actually guarantees for the history
query: the result is some permutation of the table's rows that is sorted
by `created_at` descending. SQLite leaves the relative order of rows that
compare equal under the ORDER BY terms unspecified (no stable tie-break is
promised), so every such permutation is an admissible result. -/
def sqlOrderByTimeDesc (s : Store) (out : List SuggestionRecord) : Prop :=
  out.Perm s.rows ∧ out.Pairwise byTimeDesc

/-- Strict descending-timestamp order, used to show the query result is
uniquely determined when no two rows share a `created_at`. -/
def byTimeDescStrict (a b : SuggestionRecord) : Prop := b.createdAt < a.createdAt

instance : IsAntisymm SuggestionRecord byTimeDescStrict :=
  ⟨fun _ _ hab hba => absurd (Nat.lt_trans hab hba) (Nat.lt_irrefl _)⟩

/-- A small concrete store used by witnesses. -/
def sampleStore : Store :=
  ⟨[⟨1, "m1", "o1", "G1", 5⟩, ⟨2, "m2", "o2", "G2", 7⟩], 2⟩

/-- One store operation, for reasoning about arbitrary operation
histories. -/
inductive Op where
  | ins (mood opinion game : String) (now : Nat)
  | delOne (id : Nat)
  | delAll
deriving DecidableEq

/-- Apply one operation to the store. -/
def Store.applyOp (s : Store) : Op → Store
  | .ins m o g now => (s.insert m o g now).1
  | .delOne id => s.deleteOne id
  | .delAll => s.deleteAll

/-- Run a sequence of operations. -/
def Store.run (s : Store) : List Op → Store
  | [] => s
  | op :: ops => (s.applyOp op).run ops

/-- The ids handed out by the inserts of an operation history, in order. -/
def Store.idsAssigned (s : Store) : List Op → List Nat
  | [] => []
  | op :: ops =>
    (match op with
     | .ins m o g now => [(s.insert m o g now).2]
     | _ => []) ++ (s.applyOp op).idsAssigned ops

/-- The insert loop of the submit handlers (`app_kadai.py` lines 211-218,
`gemini_kadai.py` lines 280-287): one `INSERT` per suggested game, all with
the same mood/opinion, each timestamped by its own `datetime.now()`
(`times k` for the k-th insert). In `app_kadai.py` the bound values are
`mood or ""` and `opinion or ""`, which on strings equal `mood` and
`opinion`. -/
def insertBatch (mood opinion : String) : List String → (Nat → Nat) → Store → Store
  | [], _, s => s
  | g :: gs, times, s =>
    insertBatch mood opinion gs (fun k => times (k + 1)) (s.insert mood opinion g (times 0)).1

/-- Observable outcome of one submit action: the store afterwards, the
parsed titles, the descriptions, whether the validation warning was shown,
and how many external-service calls were made. -/
structure SubmitOutcome where
  store : Store
  suggested : List String
  descriptions : List String
  warned : Bool
  calls : Nat
deriving DecidableEq

/-- The submit handler of `app_kadai.py` lines 169-246. Gate: `if mood or
opinion` (at least one non-empty). The titles call (line 185) is not
guarded, so a raising call aborts the action with nothing persisted
(`none`). The descriptions call is made through
`generate_one_line_descriptions`, which already swallows service errors;
the surrounding `try/except` (lines 205-208) therefore never fires in this
model. `none` models an action aborted by an uncaught exception (no store
write); otherwise `some` carries the outcome. -/
def app_submit (mood opinion : String) (titleSvc descSvc : String → Option String)
    (times : Nat → Nat) (s : Store) : Option SubmitOutcome :=
  if mood ≠ "" ∨ opinion ≠ "" then
    match titleSvc (titlesPromptApp mood opinion) with
    | none => none
    | some text =>
      let suggested := parseLines text
      let gen := generate_one_line_descriptions suggested mood opinion descSvc
      some ⟨insertBatch mood opinion suggested times s, suggested, gen.1, false,
            1 + (if gen.2 then 1 else 0)⟩
  else some ⟨s, [], [], true, 0⟩

/-- The submit handler of `gemini_kadai.py` lines 267-309. Gate: `if mood
and opinion` (both non-empty; on failure the warning 「気分と意見の両方を
入力してください」 is shown and nothing else happens). Neither the titles
call (`generate_game_suggestion`) nor the descriptions call
(`generate_game_descriptions`) is guarded by `try/except`, so a raising
call aborts the action before any insert (`none`). -/
def gemini_submit (mood opinion : String) (titleSvc descSvc : String → Option String)
    (times : Nat → Nat) (s : Store) : Option SubmitOutcome :=
  if mood ≠ "" ∧ opinion ≠ "" then
    match titleSvc (titlesPromptGemini mood opinion) with
    | none => none
    | some text =>
      let suggested := parseLines text
      match generate_game_descriptions suggested mood opinion descSvc with
      | (none, _) => none
      | (some descriptions, called) =>
        some ⟨insertBatch mood opinion suggested times s, suggested, descriptions, false,
              1 + (if called then 1 else 0)⟩
  else some ⟨s, [], [], true, 0⟩

/-! ### Helper lemmas -/

theorem parseLines_mem_ne_empty {t l : String} (hl : l ∈ parseLines t) : l ≠ "" := by
  simp only [parseLines, List.mem_filter, decide_eq_true_eq] at hl
  exact hl.2

theorem padLines_length (n : Nat) (L : List String) :
    (padLines n L).length = max n L.length := by
  unfold padLines
  split <;> simp <;> omega

theorem padLines_mem {n : Nat} {L : List String} {d : String} (hd : d ∈ padLines n L) :
    d ∈ L ∨ d = noDescription := by
  unfold padLines at hd
  split at hd
  · rcases List.mem_append.mp hd with h | h
    · exact Or.inl h
    · exact Or.inr (List.eq_of_mem_replicate h)
  · exact Or.inl hd

theorem padLines_of_lt {n : Nat} {L : List String} (h : L.length < n) :
    padLines n L = L ++ List.replicate (n - L.length) noDescription :=
  if_pos h

theorem padLines_nil (n : Nat) : padLines n [] = List.replicate n noDescription := by
  unfold padLines
  split <;> simp_all

theorem generate_one_line_descriptions_some {titles : List String} {mood opinion : String}
    {svc : String → Option String} {t : String} (hne : titles ≠ [])
    (hs : svc (descPrompt titles mood opinion) = some t) :
    generate_one_line_descriptions titles mood opinion svc
      = (padLines titles.length (parseLines t), true) := by
  simp only [generate_one_line_descriptions, if_neg hne, hs]

theorem generate_one_line_descriptions_none {titles : List String} {mood opinion : String}
    {svc : String → Option String} (hne : titles ≠ [])
    (hs : svc (descPrompt titles mood opinion) = none) :
    generate_one_line_descriptions titles mood opinion svc
      = (List.replicate titles.length noDescription, true) := by
  simp only [generate_one_line_descriptions, if_neg hne, hs, padLines_nil]

theorem generate_game_descriptions_some {titles : List String} {mood opinion : String}
    {svc : String → Option String} {t : String} (hne : titles ≠ [])
    (hs : svc (geminiDescPrompt titles mood opinion) = some t) :
    generate_game_descriptions titles mood opinion svc
      = (some (padLines titles.length (parseLines t)), true) := by
  simp only [generate_game_descriptions, if_neg hne, hs]

theorem generate_game_descriptions_none {titles : List String} {mood opinion : String}
    {svc : String → Option String} (hne : titles ≠ [])
    (hs : svc (geminiDescPrompt titles mood opinion) = none) :
    generate_game_descriptions titles mood opinion svc = (none, true) := by
  simp only [generate_game_descriptions, if_neg hne, hs]

theorem insert_fst_rows (s : Store) (mood opinion game : String) (now : Nat) :
    (s.insert mood opinion game now).1.rows
      = s.rows ++ [⟨s.seq + 1, mood, opinion, game, now⟩] := rfl

theorem insertBatch_spec (mood opinion : String) :
    ∀ (gs : List String) (times : Nat → Nat) (s : Store),
      ∃ new : List SuggestionRecord,
        (insertBatch mood opinion gs times s).rows = s.rows ++ new
        ∧ new.map SuggestionRecord.suggestedGame = gs
        ∧ ∀ r ∈ new, r.mood = mood ∧ r.opinion = opinion
  | [], _, s => ⟨[], by simp [insertBatch]⟩
  | g :: gs, times, s => by
    obtain ⟨new, h1, h2, h3⟩ :=
      insertBatch_spec mood opinion gs (fun k => times (k + 1))
        (s.insert mood opinion g (times 0)).1
    refine ⟨⟨s.seq + 1, mood, opinion, g, times 0⟩ :: new, ?_, ?_, ?_⟩
    · simp only [insertBatch, h1, insert_fst_rows, List.append_assoc, List.singleton_append]
    · simp [h2]
    · intro r hr
      rcases List.mem_cons.mp hr with h | h
      · subst h; exact ⟨rfl, rfl⟩
      · exact h3 r h

theorem app_submit_some {mood opinion : String} {titleSvc descSvc : String → Option String}
    {times : Nat → Nat} {s : Store} {text : String}
    (hgate : mood ≠ "" ∨ opinion ≠ "")
    (ht : titleSvc (titlesPromptApp mood opinion) = some text) :
    app_submit mood opinion titleSvc descSvc times s =
      some ⟨insertBatch mood opinion (parseLines text) times s, parseLines text,
            (generate_one_line_descriptions (parseLines text) mood opinion descSvc).1, false,
            1 + (if (generate_one_line_descriptions (parseLines text) mood opinion descSvc).2
                 then 1 else 0)⟩ := by
  simp only [app_submit, if_pos hgate, ht]

theorem gemini_submit_desc_fail {mood opinion : String}
    {titleSvc descSvc : String → Option String} {times : Nat → Nat} {s : Store} {text : String}
    (hm : mood ≠ "") (ho : opinion ≠ "")
    (ht : titleSvc (titlesPromptGemini mood opinion) = some text)
    (hne : parseLines text ≠ [])
    (hd : descSvc (geminiDescPrompt (parseLines text) mood opinion) = none) :
    gemini_submit mood opinion titleSvc descSvc times s = none := by
  simp only [gemini_submit, if_pos (And.intro hm ho), ht,
    generate_game_descriptions_none hne hd]

theorem listAll_admissible (s : Store) : sqlOrderByTimeDesc s s.listAll :=
  ⟨List.perm_insertionSort byTimeDesc s.rows,
   List.sorted_insertionSort byTimeDesc s.rows⟩

theorem pairwise_strict_of_pairwise_le : ∀ {l : List SuggestionRecord},
    l.Pairwise byTimeDesc → (l.map SuggestionRecord.createdAt).Nodup →
    l.Pairwise byTimeDescStrict
  | [], _, _ => List.Pairwise.nil
  | a :: t, h, hn => by
    rw [List.pairwise_cons] at h ⊢
    rw [List.map_cons, List.nodup_cons] at hn
    refine ⟨fun b hb => ?_, pairwise_strict_of_pairwise_le h.2 hn.2⟩
    have h1 : b.createdAt ≤ a.createdAt := h.1 b hb
    have h2 : b.createdAt ≠ a.createdAt := fun e =>
      hn.1 (e ▸ List.mem_map_of_mem SuggestionRecord.createdAt hb)
    exact Nat.lt_of_le_of_ne h1 h2

theorem sqlOrderByTimeDesc_unique {s : Store} {out : List SuggestionRecord}
    (h : sqlOrderByTimeDesc s out)
    (hn : (s.rows.map SuggestionRecord.createdAt).Nodup) :
    out = s.listAll := by
  have hperm : out.Perm s.listAll :=
    h.1.trans (List.perm_insertionSort byTimeDesc s.rows).symm
  have hn1 : (out.map SuggestionRecord.createdAt).Nodup :=
    ((h.1.map SuggestionRecord.createdAt).nodup_iff).mpr hn
  have hn2 : (s.listAll.map SuggestionRecord.createdAt).Nodup :=
    (((List.perm_insertionSort byTimeDesc s.rows).map
        SuggestionRecord.createdAt).nodup_iff).mpr hn
  exact List.eq_of_perm_of_sorted hperm
    (pairwise_strict_of_pairwise_le h.2 hn1)
    (pairwise_strict_of_pairwise_le (List.sorted_insertionSort byTimeDesc s.rows) hn2)

theorem applyOp_seq_le (s : Store) (op : Op) : s.seq ≤ (s.applyOp op).seq := by
  cases op <;> simp [Store.applyOp, Store.insert, Store.deleteOne, Store.deleteAll]

theorem run_seq_mono : ∀ (ops : List Op) (s : Store), s.seq ≤ (s.run ops).seq
  | [], _ => le_refl _
  | op :: ops, s => le_trans (applyOp_seq_le s op) (run_seq_mono ops (s.applyOp op))

theorem idsAssigned_le : ∀ (ops : List Op) (s : Store) (i : Nat),
    i ∈ s.idsAssigned ops → i ≤ (s.run ops).seq
  | [], _, i, hi => absurd hi (List.not_mem_nil i)
  | op :: ops, s, i, hi => by
    cases op with
    | ins m o g now =>
      simp only [Store.idsAssigned, List.mem_append, List.mem_singleton] at hi
      rcases hi with rfl | hi
      · show _ ≤ ((s.applyOp (Op.ins m o g now)).run ops).seq
        exact run_seq_mono ops (s.applyOp (Op.ins m o g now))
      · exact idsAssigned_le ops _ i hi
    | delOne id =>
      simp only [Store.idsAssigned, List.nil_append] at hi
      exact idsAssigned_le ops _ i hi
    | delAll =>
      simp only [Store.idsAssigned, List.nil_append] at hi
      exact idsAssigned_le ops _ i hi

theorem deleteOne_idem (s : Store) (id : Nat) :
    (s.deleteOne id).deleteOne id = s.deleteOne id := by
  simp [Store.deleteOne, List.filter_filter]

theorem length_le_filter_ne_add_one (id : Nat) :
    ∀ rows : List SuggestionRecord, (rows.map SuggestionRecord.id).Nodup →
      rows.length ≤ (rows.filter (fun r => r.id ≠ id)).length + 1
  | [], _ => by simp
  | a :: rows, h => by
    rw [List.map_cons, List.nodup_cons] at h
    by_cases ha : a.id = id
    · have hall : rows.filter (fun r => r.id ≠ id) = rows :=
        List.filter_eq_self.mpr (fun r hr => by
          have hne : r.id ≠ a.id :=
            fun e => h.1 (e ▸ List.mem_map_of_mem SuggestionRecord.id hr)
          simp [ha ▸ hne])
      rw [List.filter_cons_of_neg (by simp [ha]), hall, List.length_cons]
    · have ih := length_le_filter_ne_add_one id rows h.2
      rw [List.filter_cons_of_pos (by simp [ha]), List.length_cons, List.length_cons]
      omega

theorem generate_one_line_descriptions_fst_some {titles : List String} {mood opinion : String}
    {svc : String → Option String} {t : String} (hne : titles ≠ [])
    (hs : svc (descPrompt titles mood opinion) = some t) :
    (generate_one_line_descriptions titles mood opinion svc).1
      = padLines titles.length (parseLines t) := by
  rw [generate_one_line_descriptions_some hne hs]

theorem generate_one_line_descriptions_fst_none {titles : List String} {mood opinion : String}
    {svc : String → Option String} (hne : titles ≠ [])
    (hs : svc (descPrompt titles mood opinion) = none) :
    (generate_one_line_descriptions titles mood opinion svc).1
      = List.replicate titles.length noDescription := by
  rw [generate_one_line_descriptions_none hne hs]

/-! ### Claim theorems -/

/-- Claim C9 (confirmed): for the empty title list and any mood/opinion,
both enrichers (`generate_one_line_descriptions`, app_kadai.py line 103-104,
and `generate_game_descriptions`, gemini_kadai.py lines 183-184) return the
empty sequence immediately and make no call to the external service: the
call flag is `false` and the result does not depend on `svc` at all. -/
theorem empty_titles_no_call (mood opinion : String) (svc : String → Option String) :
    generate_one_line_descriptions [] mood opinion svc = ([], false)
    ∧ generate_game_descriptions [] mood opinion svc = (some [], false) :=
  ⟨rfl, rfl⟩

/-- Claim C3 (confirmed): when the enrichment response parses into fewer
non-empty lines than there are titles, the result keeps the parsed lines
first, in response order, and pads the tail with the sentinel `"説明なし"`;
concretely, for titles `["A","B","C"]` and response `"desc1\ndesc2"` the
result is exactly `["desc1","desc2","説明なし"]`. -/
theorem descriptions_padded_in_order (titles : List String) (mood opinion : String)
    (svc : String → Option String) (t : String)
    (hs : svc (descPrompt titles mood opinion) = some t)
    (hlt : (parseLines t).length < titles.length) :
    (generate_one_line_descriptions titles mood opinion svc).1
      = parseLines t ++ List.replicate (titles.length - (parseLines t).length) noDescription
    ∧ (generate_one_line_descriptions ["A", "B", "C"] "" "" (fun _ => some "desc1\ndesc2")).1
      = ["desc1", "desc2", "説明なし"] := by
  have hne : titles ≠ [] := by
    intro e
    rw [e] at hlt
    simp at hlt
  constructor
  · rw [generate_one_line_descriptions_fst_some hne hs]
    exact padLines_of_lt hlt
  · decide

/-- Witness for `descriptions_padded_in_order` at the spec's concrete
scenario (titles `["A","B","C"]`, response `"desc1\ndesc2"`). -/
theorem descriptions_padded_in_order_witness :
    ((fun (_ : String) => (some "desc1\ndesc2" : Option String)) (descPrompt ["A", "B", "C"] "" "")
        = some "desc1\ndesc2")
    ∧ (parseLines "desc1\ndesc2").length < (["A", "B", "C"] : List String).length
    ∧ (generate_one_line_descriptions ["A", "B", "C"] "" "" (fun _ => some "desc1\ndesc2")).1
        = parseLines "desc1\ndesc2"
          ++ List.replicate ((["A", "B", "C"] : List String).length
              - (parseLines "desc1\ndesc2").length) noDescription :=
  ⟨rfl, by decide,
   (descriptions_padded_in_order ["A", "B", "C"] "" "" (fun _ => some "desc1\ndesc2")
      "desc1\ndesc2" rfl (by decide)).1⟩

/-- Claim C1 counterexample: with one title and a response parsing into two
non-empty lines, `generate_one_line_descriptions` returns two descriptions,
not `len(titles) = 1`. The claim that the enricher returns exactly
`len(titles)` descriptions regardless of how many non-empty lines the
response parses into is therefore false: the padding step only pads a
shortfall and never truncates extra lines. -/
theorem descriptions_exceed_titles :
    (generate_one_line_descriptions ["A"] "" "" (fun _ => some "desc1\ndesc2")).1.length
      ≠ (["A"] : List String).length := by decide

/-- Claim C1 (corrected): for every non-empty title list the enricher
returns at least `len(titles)` descriptions; the count is exactly
`len(titles)` when the call fails, and exactly
`max(len(titles), parsed-line-count)` when the call succeeds, so extra
response lines are returned untruncated. The same count holds for
`generate_game_descriptions` (gemini_kadai.py) whenever its call
succeeds. -/
theorem descriptions_length_max (titles : List String) (mood opinion : String)
    (svc : String → Option String) (hne : titles ≠ []) :
    titles.length ≤ (generate_one_line_descriptions titles mood opinion svc).1.length
    ∧ (∀ t, svc (descPrompt titles mood opinion) = some t →
        (generate_one_line_descriptions titles mood opinion svc).1.length
          = max titles.length (parseLines t).length)
    ∧ (svc (descPrompt titles mood opinion) = none →
        (generate_one_line_descriptions titles mood opinion svc).1.length = titles.length)
    ∧ (∀ t ds, svc (geminiDescPrompt titles mood opinion) = some t →
        (generate_game_descriptions titles mood opinion svc).1 = some ds →
        ds.length = max titles.length (parseLines t).length) := by
  refine ⟨?_, ?_, ?_, ?_⟩
  · cases hsv : svc (descPrompt titles mood opinion) with
    | some t =>
      rw [generate_one_line_descriptions_fst_some hne hsv, padLines_length]
      exact Nat.le_max_left _ _
    | none =>
      rw [generate_one_line_descriptions_fst_none hne hsv, List.length_replicate]
  · intro t hs
    rw [generate_one_line_descriptions_fst_some hne hs, padLines_length]
  · intro hs
    rw [generate_one_line_descriptions_fst_none hne hs, List.length_replicate]
  · intro t ds hs hds
    rw [generate_game_descriptions_some hne hs] at hds
    obtain rfl : padLines titles.length (parseLines t) = ds := Option.some.inj hds
    exact padLines_length _ _

/-- Witness for `descriptions_length_max` at titles `["A"]` and the service
response `"d1\nd2"`. -/
theorem descriptions_length_max_witness :
    ((["A"] : List String) ≠ [])
    ∧ ((["A"] : List String).length
          ≤ (generate_one_line_descriptions ["A"] "m" "o" (fun _ => some "d1\nd2")).1.length
       ∧ (∀ t, (fun (_ : String) => (some "d1\nd2" : Option String)) (descPrompt ["A"] "m" "o")
              = some t →
            (generate_one_line_descriptions ["A"] "m" "o" (fun _ => some "d1\nd2")).1.length
              = max (["A"] : List String).length (parseLines t).length)
       ∧ ((fun (_ : String) => (some "d1\nd2" : Option String)) (descPrompt ["A"] "m" "o")
              = none →
            (generate_one_line_descriptions ["A"] "m" "o" (fun _ => some "d1\nd2")).1.length
              = (["A"] : List String).length)
       ∧ (∀ t ds, (fun (_ : String) => (some "d1\nd2" : Option String))
              (geminiDescPrompt ["A"] "m" "o") = some t →
            (generate_game_descriptions ["A"] "m" "o" (fun _ => some "d1\nd2")).1 = some ds →
            ds.length = max (["A"] : List String).length (parseLines t).length)) :=
  ⟨by decide, descriptions_length_max ["A"] "m" "o" (fun _ => some "d1\nd2") (by decide)⟩

/-- Claim C10 (confirmed): for every non-empty title list and every
successful service response, the enricher result has length
`max(len(titles), parsed-line-count)` (extra lines are never truncated) and
every element is either one of the trimmed non-empty response lines or the
sentinel `"説明なし"`; likewise for gemini_kadai.py's
`generate_game_descriptions` when its call succeeds. -/
theorem enricher_result_shape (titles : List String) (mood opinion : String)
    (svc : String → Option String) (t : String)
    (hne : titles ≠ []) (hs : svc (descPrompt titles mood opinion) = some t) :
    ((generate_one_line_descriptions titles mood opinion svc).1.length
        = max titles.length (parseLines t).length
      ∧ ∀ d ∈ (generate_one_line_descriptions titles mood opinion svc).1,
          (d ∈ parseLines t ∧ d ≠ "") ∨ d = noDescription)
    ∧ ∀ svc2 t2 ds, svc2 (geminiDescPrompt titles mood opinion) = some t2 →
        (generate_game_descriptions titles mood opinion svc2).1 = some ds →
        ds.length = max titles.length (parseLines t2).length
        ∧ ∀ d ∈ ds, (d ∈ parseLines t2 ∧ d ≠ "") ∨ d = noDescription := by
  constructor
  · constructor
    · rw [generate_one_line_descriptions_fst_some hne hs, padLines_length]
    · intro d hd
      rw [generate_one_line_descriptions_fst_some hne hs] at hd
      rcases padLines_mem hd with h | h
      · exact Or.inl ⟨h, parseLines_mem_ne_empty h⟩
      · exact Or.inr h
  · intro svc2 t2 ds hs2 hds
    rw [generate_game_descriptions_some hne hs2] at hds
    obtain rfl : padLines titles.length (parseLines t2) = ds := Option.some.inj hds
    refine ⟨padLines_length _ _, ?_⟩
    intro d hd
    rcases padLines_mem hd with h | h
    · exact Or.inl ⟨h, parseLines_mem_ne_empty h⟩
    · exact Or.inr h

/-- Witness for `enricher_result_shape` at titles `["A","B","C"]` and
response `"d1\nd2"`. -/
theorem enricher_result_shape_witness :
    ((["A", "B", "C"] : List String) ≠ [])
    ∧ ((fun (_ : String) => (some "d1\nd2" : Option String)) (descPrompt ["A", "B", "C"] "m" "")
        = some "d1\nd2")
    ∧ ((((generate_one_line_descriptions ["A", "B", "C"] "m" ""
            (fun _ => some "d1\nd2")).1.length
          = max (["A", "B", "C"] : List String).length (parseLines "d1\nd2").length)
        ∧ ∀ d ∈ (generate_one_line_descriptions ["A", "B", "C"] "m" ""
            (fun _ => some "d1\nd2")).1,
            (d ∈ parseLines "d1\nd2" ∧ d ≠ "") ∨ d = noDescription)
      ∧ ∀ svc2 t2 ds, svc2 (geminiDescPrompt ["A", "B", "C"] "m" "") = some t2 →
          (generate_game_descriptions ["A", "B", "C"] "m" "" svc2).1 = some ds →
          ds.length = max (["A", "B", "C"] : List String).length (parseLines t2).length
          ∧ ∀ d ∈ ds, (d ∈ parseLines t2 ∧ d ≠ "") ∨ d = noDescription) :=
  ⟨by decide, rfl,
   enricher_result_shape ["A", "B", "C"] "m" "" (fun _ => some "d1\nd2") "d1\nd2"
     (by decide) rfl⟩

/-- Claim C2 (code bug in `gemini_kadai.py`): evaluation of both submit
handlers at the failing input mood = "tired", opinion = "". The claim (and
`gemini_kadai.py`'s own caption 「どちらか片方を入力しても提案可能です」,
line 256) says generation proceeds when at least one field is non-empty,
and `app_kadai.py` (gate `if mood or opinion`) indeed generates and inserts
two rows; but `gemini_kadai.py`'s gate `if mood and opinion` (line 268)
shows the validation warning and makes no network call and no insert. With
both fields empty, both handlers warn and do nothing, as the claim says. -/
theorem gemini_gate_requires_both_inputs :
    gemini_submit "tired" "" (fun _ => some "GameA\nGameB") (fun _ => some "d1\nd2")
        (fun _ => 0) Store.empty = some ⟨Store.empty, [], [], true, 0⟩
    ∧ app_submit "tired" "" (fun _ => some "GameA\nGameB") (fun _ => some "d1\nd2")
        (fun _ => 0) Store.empty
      = some ⟨⟨[⟨1, "tired", "", "GameA", 0⟩, ⟨2, "tired", "", "GameB", 0⟩], 2⟩,
              ["GameA", "GameB"], ["d1", "d2"], false, 2⟩
    ∧ app_submit "" "" (fun _ => some "GameA\nGameB") (fun _ => some "d1\nd2")
        (fun _ => 0) Store.empty = some ⟨Store.empty, [], [], true, 0⟩
    ∧ gemini_submit "" "" (fun _ => some "GameA\nGameB") (fun _ => some "d1\nd2")
        (fun _ => 0) Store.empty = some ⟨Store.empty, [], [], true, 0⟩ := by
  refine ⟨?_, ?_, ?_, ?_⟩ <;> decide

/-- Claim C4 counterexample: in `gemini_kadai.py` an error raised by the
descriptions call is NOT recovered: `generate_game_descriptions` has no
`try/except`, so the exception propagates out of the submit handler and the
flow aborts (`none`) before any row is persisted — contradicting the claim
that the flow still completes and persists all titles. -/
theorem gemini_enrichment_failure_aborts_flow :
    gemini_submit "疲れた" "アクション好き" (fun _ => some "GameA\nGameB") (fun _ => none)
      (fun _ => 0) Store.empty = none := by decide

/-- Claim C4 (corrected): in `app_kadai.py` the enricher catches any error
of the external call, the sentinel `"説明なし"` is substituted for every
title, and the flow completes and persists all titles; in `gemini_kadai.py`,
however, an enrichment failure propagates uncaught and aborts the flow
before any insert. -/
theorem enrichment_failure_recovery (mood opinion : String)
    (titleSvc descSvc : String → Option String) (times : Nat → Nat) (s : Store) (text : String)
    (hgate : mood ≠ "" ∨ opinion ≠ "")
    (hta : titleSvc (titlesPromptApp mood opinion) = some text)
    (hd : ∀ p, descSvc p = none) :
    (∃ out : SubmitOutcome,
        app_submit mood opinion titleSvc descSvc times s = some out
        ∧ out.descriptions = List.replicate (parseLines text).length noDescription
        ∧ ∃ new : List SuggestionRecord,
            out.store.rows = s.rows ++ new
            ∧ new.map SuggestionRecord.suggestedGame = parseLines text)
    ∧ (mood ≠ "" → opinion ≠ "" → titleSvc (titlesPromptGemini mood opinion) = some text →
        parseLines text ≠ [] →
        gemini_submit mood opinion titleSvc descSvc times s = none) := by
  constructor
  · refine ⟨_, app_submit_some hgate hta, ?_, ?_⟩
    · by_cases hne : parseLines text = []
      · show (generate_one_line_descriptions (parseLines text) mood opinion descSvc).1 = _
        rw [hne]
        simp [generate_one_line_descriptions]
      · exact generate_one_line_descriptions_fst_none hne (hd _)
    · obtain ⟨new, h1, h2, _⟩ := insertBatch_spec mood opinion (parseLines text) times s
      exact ⟨new, h1, h2⟩
  · intro hm ho htg hne
    exact gemini_submit_desc_fail hm ho htg hne (hd _)

/-- Witness for `enrichment_failure_recovery`: a concrete run where the
titles call returns "GameA\nGameB" and every descriptions call fails. -/
theorem enrichment_failure_recovery_witness :
    (("m" : String) ≠ "" ∨ ("o" : String) ≠ "")
    ∧ ((fun (_ : String) => (some "GameA\nGameB" : Option String)) (titlesPromptApp "m" "o")
        = some "GameA\nGameB")
    ∧ (∀ p : String, (fun (_ : String) => (none : Option String)) p = none)
    ∧ ((∃ out : SubmitOutcome,
          app_submit "m" "o" (fun _ => some "GameA\nGameB") (fun _ => none) (fun _ => 0)
              Store.empty = some out
          ∧ out.descriptions = List.replicate (parseLines "GameA\nGameB").length noDescription
          ∧ ∃ new : List SuggestionRecord,
              out.store.rows = Store.empty.rows ++ new
              ∧ new.map SuggestionRecord.suggestedGame = parseLines "GameA\nGameB")
       ∧ (("m" : String) ≠ "" → ("o" : String) ≠ "" →
            (fun (_ : String) => (some "GameA\nGameB" : Option String)) (titlesPromptGemini "m" "o")
              = some "GameA\nGameB" →
            parseLines "GameA\nGameB" ≠ [] →
            gemini_submit "m" "o" (fun _ => some "GameA\nGameB") (fun _ => none) (fun _ => 0)
              Store.empty = none)) :=
  ⟨by decide, rfl, fun _ => rfl,
   enrichment_failure_recovery "m" "o" (fun _ => some "GameA\nGameB") (fun _ => none)
     (fun _ => 0) Store.empty "GameA\nGameB" (by decide) rfl (fun _ => rfl)⟩

/-- Claim C5 (confirmed): the titles response is parsed by splitting on
line breaks, trimming each line and discarding empty lines in response
order (concretely, "Stardew Valley\nUnpacking\n\n" parses to
["Stardew Valley", "Unpacking"]), and the `app_kadai.py` submit handler
then inserts exactly one row per parsed title, every row of the batch
carrying the given mood and opinion values. -/
theorem one_row_per_parsed_title (mood opinion : String)
    (titleSvc descSvc : String → Option String) (times : Nat → Nat) (s : Store) (text : String)
    (hgate : mood ≠ "" ∨ opinion ≠ "")
    (hta : titleSvc (titlesPromptApp mood opinion) = some text) :
    parseLines "Stardew Valley\nUnpacking\n\n" = ["Stardew Valley", "Unpacking"]
    ∧ ∃ out : SubmitOutcome,
        app_submit mood opinion titleSvc descSvc times s = some out
        ∧ out.suggested = parseLines text
        ∧ ∃ new : List SuggestionRecord,
            out.store.rows = s.rows ++ new
            ∧ new.map SuggestionRecord.suggestedGame = parseLines text
            ∧ ∀ r ∈ new, r.mood = mood ∧ r.opinion = opinion := by
  refine ⟨by decide, _, app_submit_some hgate hta, rfl, ?_⟩
  exact insertBatch_spec mood opinion (parseLines text) times s

/-- Witness for `one_row_per_parsed_title` at the spec's end-to-end
scenario 1: mood "tired", opinion "short sessions", titles response
"Stardew Valley\nUnpacking\n\n". -/
theorem one_row_per_parsed_title_witness :
    (("tired" : String) ≠ "" ∨ ("short sessions" : String) ≠ "")
    ∧ ((fun (_ : String) => (some "Stardew Valley\nUnpacking\n\n" : Option String))
          (titlesPromptApp "tired" "short sessions") = some "Stardew Valley\nUnpacking\n\n")
    ∧ (parseLines "Stardew Valley\nUnpacking\n\n" = ["Stardew Valley", "Unpacking"]
       ∧ ∃ out : SubmitOutcome,
           app_submit "tired" "short sessions"
               (fun _ => some "Stardew Valley\nUnpacking\n\n") (fun _ => some "d1\nd2")
               (fun _ => 0) Store.empty = some out
           ∧ out.suggested = parseLines "Stardew Valley\nUnpacking\n\n"
           ∧ ∃ new : List SuggestionRecord,
               out.store.rows = Store.empty.rows ++ new
               ∧ new.map SuggestionRecord.suggestedGame = parseLines "Stardew Valley\nUnpacking\n\n"
               ∧ ∀ r ∈ new, r.mood = "tired" ∧ r.opinion = "short sessions") :=
  ⟨by decide, rfl,
   one_row_per_parsed_title "tired" "short sessions"
     (fun _ => some "Stardew Valley\nUnpacking\n\n") (fun _ => some "d1\nd2")
     (fun _ => 0) Store.empty "Stardew Valley\nUnpacking\n\n" (by decide) rfl⟩

/-- Claim C6 counterexample: the query `ORDER BY created_at DESC` does not
guarantee the claimed stable tie-break. On a store holding two rows with
identical `createdAt` (inserted as id 1 then id 2), the reversed list is
also an admissible query result — it contains all rows and is sorted by
`createdAt` descending — yet filtering it to the tied timestamp does not
return the rows in their insertion (rowid) order: the tie order is
unspecified by SQLite, so the claim fails for this admissible result. -/
theorem listAll_tie_order_not_guaranteed :
    sqlOrderByTimeDesc ⟨[⟨1, "m", "o", "G1", 5⟩, ⟨2, "m", "o", "G2", 5⟩], 2⟩
        [⟨2, "m", "o", "G2", 5⟩, ⟨1, "m", "o", "G1", 5⟩]
    ∧ ¬ (([⟨2, "m", "o", "G2", 5⟩, ⟨1, "m", "o", "G1", 5⟩] : List SuggestionRecord).filter
            (fun r => r.createdAt == 5)
          = (⟨[⟨1, "m", "o", "G1", 5⟩, ⟨2, "m", "o", "G2", 5⟩], 2⟩ : Store).rows.filter
            (fun r => r.createdAt == 5)) := by
  constructor
  · exact ⟨List.Perm.swap _ _ _, by decide⟩
  · decide

/-- Claim C6 (corrected): for every store state, every admissible result of
the history query contains exactly the persisted records (a permutation of
the table) ordered by `createdAt` descending (most recent first), and such
a result always exists (`listAll` is one); when all `createdAt` values are
distinct the result is uniquely determined, but among records with
identical `createdAt` the relative order is unspecified by the query — no
stable tie-break is guaranteed. -/
theorem listAll_sorted_desc (s : Store) (out : List SuggestionRecord)
    (h : sqlOrderByTimeDesc s out) :
    (out.Perm s.rows ∧ out.Pairwise (fun a b => b.createdAt ≤ a.createdAt))
    ∧ sqlOrderByTimeDesc s s.listAll
    ∧ ((s.rows.map SuggestionRecord.createdAt).Nodup → out = s.listAll) :=
  ⟨⟨h.1, h.2⟩, listAll_admissible s, fun hn => sqlOrderByTimeDesc_unique h hn⟩

/-- Witness for `listAll_sorted_desc` on a concrete two-row store with
distinct timestamps and the descending-order output. -/
theorem listAll_sorted_desc_witness :
    sqlOrderByTimeDesc ⟨[⟨1, "m", "o", "G1", 5⟩, ⟨2, "m", "o", "G2", 9⟩], 2⟩
        [⟨2, "m", "o", "G2", 9⟩, ⟨1, "m", "o", "G1", 5⟩]
    ∧ ((([⟨2, "m", "o", "G2", 9⟩, ⟨1, "m", "o", "G1", 5⟩] : List SuggestionRecord).Perm
          (⟨[⟨1, "m", "o", "G1", 5⟩, ⟨2, "m", "o", "G2", 9⟩], 2⟩ : Store).rows
        ∧ ([⟨2, "m", "o", "G2", 9⟩, ⟨1, "m", "o", "G1", 5⟩] : List SuggestionRecord).Pairwise
            (fun a b => b.createdAt ≤ a.createdAt))
       ∧ sqlOrderByTimeDesc ⟨[⟨1, "m", "o", "G1", 5⟩, ⟨2, "m", "o", "G2", 9⟩], 2⟩
           (⟨[⟨1, "m", "o", "G1", 5⟩, ⟨2, "m", "o", "G2", 9⟩], 2⟩ : Store).listAll
       ∧ (((⟨[⟨1, "m", "o", "G1", 5⟩, ⟨2, "m", "o", "G2", 9⟩], 2⟩ : Store).rows.map
              SuggestionRecord.createdAt).Nodup →
            [⟨2, "m", "o", "G2", 9⟩, ⟨1, "m", "o", "G1", 5⟩]
              = (⟨[⟨1, "m", "o", "G1", 5⟩, ⟨2, "m", "o", "G2", 9⟩], 2⟩ : Store).listAll)) :=
  ⟨⟨List.Perm.swap _ _ _, by decide⟩,
   listAll_sorted_desc ⟨[⟨1, "m", "o", "G1", 5⟩, ⟨2, "m", "o", "G2", 9⟩], 2⟩
     [⟨2, "m", "o", "G2", 9⟩, ⟨1, "m", "o", "G1", 5⟩]
     ⟨List.Perm.swap _ _ _, by decide⟩⟩

/-- Claim C7 (confirmed): starting from a fresh database, after any
sequence of inserts and deletions, `deleteAll` leaves `listAll` empty, and
the next insert's id is strictly greater than every id the store has ever
assigned during the history — ids are never reused after deletion (the
`AUTOINCREMENT` sequence survives deletes). -/
theorem ids_never_reused (ops : List Op) (mood opinion game : String) (now i : Nat)
    (hi : i ∈ Store.idsAssigned Store.empty ops) :
    (Store.empty.run ops).deleteAll.listAll = []
    ∧ i < ((Store.empty.run ops).insert mood opinion game now).2 := by
  constructor
  · rfl
  · have h := idsAssigned_le ops Store.empty i hi
    show i < (Store.empty.run ops).seq + 1
    omega

/-- Witness for `ids_never_reused`: insert, delete everything, and check
the id assigned before the wipe stays below the next insert's id. -/
theorem ids_never_reused_witness :
    (1 ∈ Store.idsAssigned Store.empty [Op.ins "a" "b" "g" 0, Op.delAll])
    ∧ ((Store.empty.run [Op.ins "a" "b" "g" 0, Op.delAll]).deleteAll.listAll = []
       ∧ 1 < ((Store.empty.run [Op.ins "a" "b" "g" 0, Op.delAll]).insert "x" "y" "z" 5).2) :=
  ⟨by decide, ids_never_reused [Op.ins "a" "b" "g" 0, Op.delAll] "x" "y" "z" 5 1 (by decide)⟩

/-- Claim C8 (confirmed): on a table whose ids are distinct (which the
store guarantees), `deleteOne id` removes at most the single row with that
id (the length drops by at most one), keeps exactly the rows whose id
differs — each with all fields unchanged — and is a no-op rather than an
error when no row with that id exists; in particular a second call with
the same id does nothing. -/
theorem deleteOne_frame (s : Store) (id : Nat)
    (hnd : (s.rows.map SuggestionRecord.id).Nodup) :
    (s.deleteOne id).deleteOne id = s.deleteOne id
    ∧ ((∀ r ∈ s.rows, r.id ≠ id) → s.deleteOne id = s)
    ∧ s.rows.length ≤ (s.deleteOne id).rows.length + 1
    ∧ (∀ r, r ∈ (s.deleteOne id).rows ↔ r ∈ s.rows ∧ r.id ≠ id) := by
  refine ⟨deleteOne_idem s id, ?_, length_le_filter_ne_add_one id s.rows hnd, ?_⟩
  · intro h
    show (⟨s.rows.filter (fun r => r.id ≠ id), s.seq⟩ : Store) = s
    rw [List.filter_eq_self.mpr (fun r hr => by simp [h r hr])]
  · intro r
    simp [Store.deleteOne, List.mem_filter]

/-- Witness for `deleteOne_frame` on a concrete two-row store. -/
theorem deleteOne_frame_witness :
    ((sampleStore.rows.map SuggestionRecord.id).Nodup)
    ∧ ((sampleStore.deleteOne 1).deleteOne 1 = sampleStore.deleteOne 1
       ∧ ((∀ r ∈ sampleStore.rows, r.id ≠ 1) → sampleStore.deleteOne 1 = sampleStore)
       ∧ sampleStore.rows.length ≤ (sampleStore.deleteOne 1).rows.length + 1
       ∧ (∀ r, r ∈ (sampleStore.deleteOne 1).rows ↔ r ∈ sampleStore.rows ∧ r.id ≠ 1)) :=
  ⟨by decide, deleteOne_frame sampleStore 1 (by decide)⟩
